import Mathlib

/-!
Verification of the branch-publish workflow of `azure_devops_mcp_server.py`:
the tool `azdo_update_file_and_create_pr` together with the transport helper
`_request` and the endpoint helpers `_get_repo`, `_get_ref_object_id`,
`_create_or_update_ref`, `_create_push` and `_create_pr`.

The remote HTTP server is modelled as an oracle scripting the response to the
n-th outbound call.  Every function returns the accumulated list of outbound
requests together with an `Except` value: `.ok` models a Python return,
`.error` models a raised exception.  The `Err` constructors correspond to the
distinct Python raise sites: `Err.api` is the `RuntimeError` raised by
`_request` on a non-2xx status (carrying the status code, URL and
JSON-or-text body it formats into its message), `Err.refNotFound` is the
`RuntimeError("Ref not found: ...")` raised by `_get_ref_object_id`, and
`Err.pyError` covers `AttributeError` / `KeyError` / `TypeError` from dict
and attribute misuse.  All of these are subclasses of Python `Exception`, so
the single `except Exception` block in the workflow catches any `.error`.
-/

namespace Azdo

/-- JSON values, as produced by `resp.json()` and sent as `json=` bodies. -/
inductive JVal where
  | null
  | str (s : String)
  | num (n : Int)
  | arr (xs : List JVal)
  | obj (fs : List (String × JVal))
deriving Inhabited

/-- Dictionary lookup on a JSON object; `none` when the key is absent or the
value is not an object. -/
def JVal.lookup : JVal → String → Option JVal
  | .obj fs, k => fs.lookup k
  | _, _ => none

/-- Python truthiness of a JSON value (`if not vals:`). -/
def JVal.falsy : JVal → Bool
  | .null => true
  | .str s => s.data.isEmpty
  | .num n => n = 0
  | .arr xs => xs.isEmpty
  | .obj fs => fs.isEmpty

/-- Python `str()` of a JSON value as interpolated into an f-string.  Only
the string case is exercised by the workflow (the repository id); the
container cases, which Python would render with `repr`, are abstracted. -/
def JVal.pystr : JVal → String
  | .str s => s
  | .num n => toString n
  | .null => "None"
  | .arr _ => "<list>"
  | .obj _ => "<dict>"

/-- A value returned by `_request`: Python `None`, a parsed JSON body, or the
raw body text when the body is not parseable JSON. -/
inductive PyVal where
  | none
  | json (j : JVal)
  | str (s : String)

/-- The Python exceptions the modelled code can raise, one constructor per
raise site (see the module docstring). -/
inductive Err where
  | api (status : Nat) (url : String) (body : JVal ⊕ String)
  | refNotFound (refName : String)
  | pyError (msg : String)

/-- An HTTP response as the code observes it: status code, raw body text,
and the result of attempting to parse the text as JSON (`resp.json()`). -/
structure HttpResp where
  status : Nat
  text : String
  parsed : Option JVal

/-- An outbound HTTP request: method, full URL, optional JSON body
(the `json=` keyword argument). -/
structure Request where
  method : String
  url : String
  body : Option JVal

/-- The remote server, scripted: the response to the n-th outbound call. -/
abbrev Oracle := Nat → HttpResp

/-- Python `s.strip()` (used only to test the body for emptiness). -/
def pyStrip (s : String) : String :=
  String.mk (((s.data.dropWhile Char.isWhitespace).reverse.dropWhile Char.isWhitespace).reverse)

/-- Python `s.rstrip("/")` as used by `_org_url`. -/
def rstripSlash (s : String) : String :=
  String.mk ((s.data.reverse.dropWhile (fun c => c = '/')).reverse)

/-- Python `s.startswith(p)`. -/
def pyStartsWith (s p : String) : Bool := p.data.isPrefixOf s.data

/-- Upper-case hexadecimal digit, for percent-encoding. -/
def hexDigitChar (n : Nat) : Char :=
  if n < 10 then Char.ofNat (48 + n) else Char.ofNat (55 + n)

/-- The UTF-8 bytes of a character (as natural numbers below 256). -/
def utf8Bytes (c : Char) : List Nat :=
  let n := c.toNat
  if n < 128 then [n]
  else if n < 2048 then [192 + n / 64, 128 + n % 64]
  else if n < 65536 then [224 + n / 4096, 128 + n / 64 % 64, 128 + n % 64]
  else [240 + n / 262144, 128 + n / 4096 % 64, 128 + n / 64 % 64, 128 + n % 64]

/-- Percent-encoding of one byte, e.g. `%2F`. -/
def quoteByte (b : Nat) : String :=
  String.mk ['%', hexDigitChar (b / 16 % 16), hexDigitChar (b % 16)]

/-- The characters `urllib.parse.quote` leaves unescaped with the default
`safe="/"`: ASCII letters, digits, `_ . - ~`, and `/`. -/
def isUrlSafe (c : Char) : Bool :=
  c.isAlpha || c.isDigit || c = '_' || c = '.' || c = '-' || c = '~' || c = '/'

/-- `urllib.parse.quote` with the default `safe="/"`. -/
def quote (s : String) : String :=
  String.join (s.data.map fun c =>
    if isUrlSafe c then String.singleton c
    else String.join ((utf8Bytes c).map quoteByte))

/-- `_org_url()`: the configured organisation URL with trailing slashes
stripped.  The environment variable is modelled as the parameter `env`. -/
def org_url (env : String) : String := rstripSlash env

/-- The body the transport attaches to its error: `resp.json()` when the
body parses, otherwise `resp.text`. -/
def bodyOf (r : HttpResp) : JVal ⊕ String :=
  match r.parsed with
  | some j => .inl j
  | none => .inr r.text

/-- `_request(method, url, json=body)`.  Appends the outbound request to the
trace and classifies the scripted response exactly as the source does: a
status of 400 or above raises the `RuntimeError` carrying status, URL and
JSON-or-text body; an empty (whitespace-only) 2xx body returns `None`; a
parseable 2xx body returns the parsed JSON; any other 2xx body returns the
raw text.  (The authentication and content-type headers the source merges
into every call carry no information the workflow branches on and are not
modelled on the request record.) -/
def rqst (o : Oracle) (tr : List Request) (method url : String) (body : Option JVal) :
    List Request × Except Err PyVal :=
  let resp := o tr.length
  let tr' := tr ++ [⟨method, url, body⟩]
  if 400 ≤ resp.status then
    (tr', .error (.api resp.status url (bodyOf resp)))
  else if pyStrip resp.text = "" then
    (tr', .ok .none)
  else
    match resp.parsed with
    | some j => (tr', .ok (.json j))
    | none => (tr', .ok (.str resp.text))

/-- `_api(url_path, api_version)`: prefix with the organisation URL and
append the api-version query parameter. -/
def api (env url_path api_version : String) : String :=
  let base := org_url env
  let p := if pyStartsWith url_path "/" then url_path else "/" ++ url_path
  base ++ p ++ "?api-version=" ++ quote api_version

/-- Python `v.get(k, d)` on a `_request` result: succeeds only when the
value is a JSON object; `None`, strings, lists and scalars raise
`AttributeError`. -/
def pyGet (v : PyVal) (k : String) (d : JVal) : Except Err JVal :=
  match v with
  | .json (.obj fs) => .ok ((fs.lookup k).getD d)
  | _ => .error (.pyError ("AttributeError: get " ++ k))

/-- Python `v.get(k, d)` on a JSON value. -/
def jGet (v : JVal) (k : String) (d : JVal) : Except Err JVal :=
  match v with
  | .obj fs => .ok ((fs.lookup k).getD d)
  | _ => .error (.pyError ("AttributeError: get " ++ k))

/-- Python `v[k]` with a string key: `KeyError` when the key is absent,
`TypeError` when the value is not a dictionary. -/
def pySubscr (v : PyVal) (k : String) : Except Err JVal :=
  match v with
  | .json (.obj fs) =>
    match fs.lookup k with
    | some x => .ok x
    | none => .error (.pyError ("KeyError: " ++ k))
  | _ => .error (.pyError ("TypeError: subscript " ++ k))

/-- Python `v[0]`. -/
def jIndex0 : JVal → Except Err JVal
  | .arr (x :: _) => .ok x
  | .arr [] => .error (.pyError "IndexError")
  | .str s =>
    match s.data with
    | c :: _ => .ok (.str (String.singleton c))
    | [] => .error (.pyError "IndexError")
  | _ => .error (.pyError "TypeError: index")

/-- URL of `_get_repo`. -/
def repoUrl (env project repo : String) : String :=
  api env ("/" ++ quote project ++ "/_apis/git/repositories/" ++ quote repo) "7.1-preview.1"

/-- URL of `_get_ref_object_id` (refs listing filtered by name). -/
def refsFilterUrl (env project : String) (repo_id : JVal) (ref_name : String) : String :=
  org_url env ++ "/" ++ quote project ++ "/_apis/git/repositories/" ++ repo_id.pystr
    ++ "/refs?filter=" ++ quote ref_name ++ "&api-version=7.1-preview.1"

/-- URL of `_create_or_update_ref`. -/
def refsPostUrl (env project : String) (repo_id : JVal) : String :=
  api env ("/" ++ quote project ++ "/_apis/git/repositories/" ++ repo_id.pystr ++ "/refs") "7.1-preview.1"

/-- URL of `_create_push`. -/
def pushesUrl (env project : String) (repo_id : JVal) : String :=
  api env ("/" ++ quote project ++ "/_apis/git/repositories/" ++ repo_id.pystr ++ "/pushes") "7.1-preview.2"

/-- URL of `_create_pr`. -/
def pullRequestsUrl (env project : String) (repo_id : JVal) : String :=
  api env ("/" ++ quote project ++ "/_apis/git/repositories/" ++ repo_id.pystr ++ "/pullrequests") "7.1-preview.1"

/-- `_get_repo(project, repo)`. -/
def get_repo (env : String) (o : Oracle) (tr : List Request) (project repo : String) :
    List Request × Except Err PyVal :=
  rqst o tr "GET" (repoUrl env project repo) none

/-- `_get_ref_object_id(project, repo_id, ref_name)`: filtered refs listing,
`data.get("value", [])`, `RuntimeError("Ref not found: ...")` when the list
is falsy, else `vals[0].get("objectId")`. -/
def get_ref_object_id (env : String) (o : Oracle) (tr : List Request)
    (project : String) (repo_id : JVal) (ref_name : String) :
    List Request × Except Err JVal :=
  match rqst o tr "GET" (refsFilterUrl env project repo_id ref_name) none with
  | (tr', .error e) => (tr', .error e)
  | (tr', .ok data) =>
    match pyGet data "value" (.arr []) with
    | .error e => (tr', .error e)
    | .ok vals =>
      if vals.falsy then (tr', .error (.refNotFound ref_name))
      else
        match jIndex0 vals with
        | .error e => (tr', .error e)
        | .ok v0 => (tr', jGet v0 "objectId" .null)

/-- The request body of `_create_or_update_ref`: a one-element list pairing
the ref name with the expected old object id and the new object id. -/
def refUpdateBody (new_ref : String) (old_object_id new_object_id : JVal) : JVal :=
  .arr [.obj [("name", .str new_ref), ("oldObjectId", old_object_id), ("newObjectId", new_object_id)]]

/-- `_create_or_update_ref(project, repo_id, new_ref, old_object_id, new_object_id)`. -/
def create_or_update_ref (env : String) (o : Oracle) (tr : List Request)
    (project : String) (repo_id : JVal) (new_ref : String) (old_object_id new_object_id : JVal) :
    List Request × Except Err PyVal :=
  rqst o tr "POST" (refsPostUrl env project repo_id)
    (some (refUpdateBody new_ref old_object_id new_object_id))

/-- `_create_push(project, repo_id, ref_updates, commits)`. -/
def create_push (env : String) (o : Oracle) (tr : List Request)
    (project : String) (repo_id : JVal) (ref_updates commits : List JVal) :
    List Request × Except Err PyVal :=
  rqst o tr "POST" (pushesUrl env project repo_id)
    (some (.obj [("refUpdates", .arr ref_updates), ("commits", .arr commits)]))

/-- The request body of `_create_pr`. -/
def prBody (source_ref target_ref title description : String) : JVal :=
  .obj [("sourceRefName", .str source_ref), ("targetRefName", .str target_ref),
        ("title", .str title), ("description", .str description)]

/-- `_create_pr(project, repo_id, source_ref, target_ref, title, description)`. -/
def create_pr (env : String) (o : Oracle) (tr : List Request)
    (project : String) (repo_id : JVal) (source_ref target_ref title description : String) :
    List Request × Except Err PyVal :=
  rqst o tr "POST" (pullRequestsUrl env project repo_id)
    (some (prBody source_ref target_ref title description))

/-- The all-zero sentinel object id the source passes for "ref did not
previously exist". -/
def zeros40 : String := "0000000000000000000000000000000000000000"

/-- The single commit entry the workflow builds for the push. -/
def commitJson (pr_title file_path new_content : String) : JVal :=
  .obj [("comment", .str pr_title),
        ("changes", .arr [.obj [("changeType", .str "edit"),
                                ("item", .obj [("path", .str file_path)]),
                                ("newContent", .obj [("content", .str new_content),
                                                     ("contentType", .str "rawtext")])]])]

/-- `azdo_update_file_and_create_pr`: resolve the repository, resolve the
base ref, create-or-reset the working branch (the `try` block spans both the
source-ref resolution and the reset, and its `except Exception` falls back to
a creation with the all-zero sentinel), push one commit, open the PR, and
assemble the result dictionary (whose value expressions are evaluated in
Python's left-to-right order). -/
def azdo_update_file_and_create_pr (env : String) (o : Oracle)
    (project repo file_path new_content pr_title : String)
    (base_branch : String := "main") (new_branch : String := "mcp/update-file")
    (pr_description : String := "") : List Request × Except Err JVal :=
  match get_repo env o [] project repo with
  | (tr, .error e) => (tr, .error e)
  | (tr, .ok repo_obj) =>
    match pySubscr repo_obj "id" with
    | .error e => (tr, .error e)
    | .ok repo_id =>
      let base_ref := "refs/heads/" ++ base_branch
      let source_ref := "refs/heads/" ++ new_branch
      match get_ref_object_id env o tr project repo_id base_ref with
      | (tr, .error e) => (tr, .error e)
      | (tr, .ok base_object_id) =>
        let tryRes : List Request × Except Err Unit :=
          match get_ref_object_id env o tr project repo_id source_ref with
          | (tr2, .error e) => (tr2, .error e)
          | (tr2, .ok existing_source_object_id) =>
            match create_or_update_ref env o tr2 project repo_id source_ref
                existing_source_object_id base_object_id with
            | (tr3, .error e) => (tr3, .error e)
            | (tr3, .ok _) => (tr3, .ok ())
        match
          (match tryRes with
           | (tr2, .ok _) => (tr2, Except.ok ())
           | (tr2, .error _) =>
             match create_or_update_ref env o tr2 project repo_id source_ref
                 (.str zeros40) base_object_id with
             | (tr3, .error e) => (tr3, .error e)
             | (tr3, .ok _) => (tr3, .ok ())) with
        | (tr, .error e) => (tr, .error e)
        | (tr, .ok _) =>
          match create_push env o tr project repo_id
              [.obj [("name", .str source_ref), ("oldObjectId", base_object_id)]]
              [commitJson pr_title file_path new_content] with
          | (tr, .error e) => (tr, .error e)
          | (tr, .ok push) =>
            match create_pr env o tr project repo_id source_ref base_ref pr_title pr_description with
            | (tr, .error e) => (tr, .error e)
            | (tr, .ok pr) =>
              match pyGet repo_obj "name" .null with
              | .error e => (tr, .error e)
              | .ok rname =>
                match pyGet push "pushId" .null with
                | .error e => (tr, .error e)
                | .ok pushId =>
                  match pyGet pr "pullRequestId" .null with
                  | .error e => (tr, .error e)
                  | .ok prId =>
                    match pyGet pr "url" .null with
                    | .error e => (tr, .error e)
                    | .ok prUrlVal =>
                      match pyGet pr "_links" (.obj []) with
                      | .error e => (tr, .error e)
                      | .ok links =>
                        match jGet links "web" (.obj []) with
                        | .error e => (tr, .error e)
                        | .ok web =>
                          match jGet web "href" .null with
                          | .error e => (tr, .error e)
                          | .ok href =>
                            (tr, .ok (.obj [
                              ("repo", .obj [("id", repo_id), ("name", rname)]),
                              ("baseRef", .str base_ref),
                              ("sourceRef", .str source_ref),
                              ("pushId", pushId),
                              ("pullRequestId", prId),
                              ("prUrl", prUrlVal),
                              ("webUrl", href)]))

/-- Repository metadata response, `{"id": ..., "name": ...}`. -/
def repoJson (rid rname : String) : JVal := .obj [("id", .str rid), ("name", .str rname)]

/-- Filtered refs listing with exactly one match. -/
def refsJson (oid : String) : JVal := .obj [("value", .arr [.obj [("objectId", .str oid)]])]

/-- Filtered refs listing with zero matches. -/
def emptyRefsJson : JVal := .obj [("value", .arr [])]

/-- Push creation response. -/
def pushJson (pid : JVal) : JVal := .obj [("pushId", pid)]

/-- Pull-request creation response. -/
def prRespJson (prid : JVal) (u href : String) : JVal :=
  .obj [("pullRequestId", prid), ("url", .str u),
        ("_links", .obj [("web", .obj [("href", .str href)])])]

/-- The scripted response is a 2xx with a nonempty body parsing to `j`. -/
def okJson (r : HttpResp) (j : JVal) : Prop :=
  r.status = 200 ∧ r.parsed = some j ∧ pyStrip r.text ≠ ""

/-- An oracle scripted from a finite list of responses (defaulting to an
empty 2xx response past the end of the script). -/
def script (rs : List HttpResp) : Oracle := fun n => rs.getD n ⟨200, "", none⟩

/-- Placeholder request for positional access into traces. -/
def dummyReq : Request := ⟨"", "", none⟩

/-- A ref-creation/ref-update request, recognised by its body shape: the
refs endpoint is the only one that takes a JSON list body (`_create_or_update_ref`
posts a one-element list). -/
def isRefPost (r : Request) : Bool :=
  match r.body with
  | some (.arr _) => true
  | _ => false

/-- A push request, recognised by its body shape: the pushes endpoint is the
only one whose JSON object body carries a `refUpdates` key. -/
def isPushReq (r : Request) : Bool :=
  match r.body with
  | some (.obj fs) => (fs.lookup "refUpdates").isSome
  | _ => false

/-- Scripted remote behaviour for the branch-exists path with every call
succeeding: repository resolves to `rid`, base tip is `B`, the working
branch already exists at `C`, and the reset, push and PR calls are accepted. -/
def scriptedExistsOk (o : Oracle) (rid rname B C : String) (j3 pid prid : JVal) (pu href : String) : Prop :=
  okJson (o 0) (repoJson rid rname) ∧ okJson (o 1) (refsJson B) ∧ okJson (o 2) (refsJson C) ∧
  okJson (o 3) j3 ∧ okJson (o 4) (pushJson pid) ∧ okJson (o 5) (prRespJson prid pu href)

/-- Scripted remote behaviour for the branch-absent path with every call
succeeding: the filtered listing for the working branch returns zero refs. -/
def scriptedAbsentOk (o : Oracle) (rid rname B : String) (j3 pid prid : JVal) (pu href : String) : Prop :=
  okJson (o 0) (repoJson rid rname) ∧ okJson (o 1) (refsJson B) ∧ okJson (o 2) emptyRefsJson ∧
  okJson (o 3) j3 ∧ okJson (o 4) (pushJson pid) ∧ okJson (o 5) (prRespJson prid pu href)

/-- Scripted remote behaviour where the working branch exists but the
ref-update resetting it to the base tip is rejected (another actor moved the
branch), and the follow-up zero-sentinel creation is rejected as well. -/
def scriptedResetConflict (o : Oracle) (rid rname B C : String) : Prop :=
  okJson (o 0) (repoJson rid rname) ∧ okJson (o 1) (refsJson B) ∧ okJson (o 2) (refsJson C) ∧
  400 ≤ (o 3).status ∧ 400 ≤ (o 4).status

/-- Scripted remote behaviour for the branch-exists path where everything up
to and including the push succeeds but PR creation is rejected. -/
def scriptedPrRejected (o : Oracle) (rid rname B C : String) (j3 pid : JVal) : Prop :=
  okJson (o 0) (repoJson rid rname) ∧ okJson (o 1) (refsJson B) ∧ okJson (o 2) (refsJson C) ∧
  okJson (o 3) j3 ∧ okJson (o 4) (pushJson pid) ∧ 400 ≤ (o 5).status

/-- A 2xx response with the JSON body `j` and the (nonempty) raw text `x`. -/
def okResp (j : JVal) : HttpResp := ⟨200, "x", some j⟩

/-- A 409 rejection, as sent for an object-id mismatch on a ref update. -/
def conflictResp : HttpResp := ⟨409, "conflict", none⟩

/-- A 400 rejection with a plain-text body. -/
def rejectedResp : HttpResp := ⟨400, "bad", none⟩

/-- The JSON body the remote API sends when a PR for the source/target pair
is already open. -/
def prRejectBody : JVal :=
  .obj [("message", .str "TF401179: an active pull request for the source and target branch already exists")]

/-- A 409 rejection of PR creation carrying `prRejectBody`. -/
def prRejectResp : HttpResp := ⟨409, "x", some prRejectBody⟩

/-- Concrete all-success script for the branch-exists path (working branch
at stale tip ccc333, base at bbb222). -/
def oracleExistsOk : Oracle :=
  script [okResp (repoJson "rid1" "Repo"), okResp (refsJson "bbb222"), okResp (refsJson "ccc333"),
          okResp .null, okResp (pushJson (.num 7)), okResp (prRespJson (.num 9) "http://pr" "http://web")]

/-- Variant of `oracleExistsOk` with the working branch at a different stale
tip eee555 (same base tip). -/
def oracleExistsOkAlt : Oracle :=
  script [okResp (repoJson "rid1" "Repo"), okResp (refsJson "bbb222"), okResp (refsJson "eee555"),
          okResp .null, okResp (pushJson (.num 7)), okResp (prRespJson (.num 9) "http://pr" "http://web")]

/-- Concrete all-success script for the branch-absent path. -/
def oracleAbsentOk : Oracle :=
  script [okResp (repoJson "rid1" "Repo"), okResp (refsJson "aaa111"), okResp emptyRefsJson,
          okResp .null, okResp (pushJson (.num 7)), okResp (prRespJson (.num 9) "http://pr" "http://web")]

/-- Script where the reset of the existing working branch is rejected with a
409 but the server then accepts the zero-sentinel creation, the push and the
PR (exercising the swallowed-conflict behaviour). -/
def oracleSwallowedConflict : Oracle :=
  script [okResp (repoJson "rid1" "Repo"), okResp (refsJson "bbb222"), okResp (refsJson "ccc333"),
          conflictResp, okResp .null, okResp (pushJson (.num 7)),
          okResp (prRespJson (.num 9) "http://pr" "http://web")]

/-- Script where both the reset of the existing working branch and the
follow-up zero-sentinel creation are rejected. -/
def oracleResetConflict : Oracle :=
  script [okResp (repoJson "rid1" "Repo"), okResp (refsJson "bbb222"), okResp (refsJson "ccc333"),
          conflictResp, rejectedResp]

/-- Script where the push succeeds with push id `pid` and PR creation is then
rejected with a 409. -/
def oraclePrReject (pid : Int) : Oracle :=
  script [okResp (repoJson "rid1" "Repo"), okResp (refsJson "bbb222"), okResp (refsJson "ccc333"),
          okResp .null, okResp (pushJson (.num pid)), prRejectResp]

/-- Script whose single response is a 2xx whose body is not parseable JSON. -/
def oracleRawBody : Oracle := script [⟨200, "oops not json", none⟩]

/-- Script whose single response is a 404 with a JSON error body, as the
remote API sends when the repository identifier does not resolve. -/
def oracleRepoMissing : Oracle :=
  script [⟨404, "x", some (.obj [("message", .str "TF401019: the repository does not exist")])⟩]

/-- Script whose single response is a 500 with a plain-text body. -/
def oracleServerErr : Oracle := script [⟨500, "boom", none⟩]

/-- Script whose single response is a 304 Not Modified — a non-2xx status
below the transport's `>= 400` threshold — with a non-JSON body. -/
def oracleNotModified : Oracle := script [⟨304, "cached body", none⟩]

/-- Characterisation of the branch-exists path with every remote call
succeeding: the workflow issues exactly the six requests `get-repository`,
`list-refs(base)`, `list-refs(source)`, `reset-ref(old = existing tip C,
new = base tip B)`, `push(oldObjectId = B)`, `create-pull-request`, and
returns the assembled success dictionary. -/
theorem run_exists_ok
    (env project repo file_path new_content pr_title base_branch new_branch pr_description : String)
    (o : Oracle) (rid rname B C pu href : String) (j3 pid prid : JVal)
    (h0 : okJson (o 0) (repoJson rid rname))
    (h1 : okJson (o 1) (refsJson B))
    (h2 : okJson (o 2) (refsJson C))
    (h3 : okJson (o 3) j3)
    (h4 : okJson (o 4) (pushJson pid))
    (h5 : okJson (o 5) (prRespJson prid pu href)) :
    azdo_update_file_and_create_pr env o project repo file_path new_content pr_title
        base_branch new_branch pr_description =
      ([⟨"GET", repoUrl env project repo, none⟩,
        ⟨"GET", refsFilterUrl env project (.str rid) ("refs/heads/" ++ base_branch), none⟩,
        ⟨"GET", refsFilterUrl env project (.str rid) ("refs/heads/" ++ new_branch), none⟩,
        ⟨"POST", refsPostUrl env project (.str rid),
           some (refUpdateBody ("refs/heads/" ++ new_branch) (.str C) (.str B))⟩,
        ⟨"POST", pushesUrl env project (.str rid),
           some (.obj [("refUpdates", .arr [.obj [("name", .str ("refs/heads/" ++ new_branch)),
                                                  ("oldObjectId", .str B)]]),
                       ("commits", .arr [commitJson pr_title file_path new_content])])⟩,
        ⟨"POST", pullRequestsUrl env project (.str rid),
           some (prBody ("refs/heads/" ++ new_branch) ("refs/heads/" ++ base_branch)
                  pr_title pr_description)⟩],
       .ok (.obj [("repo", .obj [("id", .str rid), ("name", .str rname)]),
                  ("baseRef", .str ("refs/heads/" ++ base_branch)),
                  ("sourceRef", .str ("refs/heads/" ++ new_branch)),
                  ("pushId", pid),
                  ("pullRequestId", prid),
                  ("prUrl", .str pu),
                  ("webUrl", .str href)])) := by
  obtain ⟨s0, p0, t0⟩ := h0
  obtain ⟨s1, p1, t1⟩ := h1
  obtain ⟨s2, p2, t2⟩ := h2
  obtain ⟨s3, p3, t3⟩ := h3
  obtain ⟨s4, p4, t4⟩ := h4
  obtain ⟨s5, p5, t5⟩ := h5
  simp [azdo_update_file_and_create_pr, get_repo, get_ref_object_id, create_or_update_ref,
        create_push, create_pr, rqst, repoJson, refsJson, pushJson, prRespJson,
        pyGet, jGet, pySubscr, jIndex0, JVal.falsy, JVal.lookup, List.lookup,
        s0, p0, t0, s1, p1, t1, s2, p2, t2, s3, p3, t3, s4, p4, t4, s5, p5, t5]

/-- Characterisation of the branch-absent path with every remote call
succeeding: the source-ref listing returns zero refs, so the `Ref not found`
error is caught and the branch is created with the all-zero sentinel; the
push and the PR follow as in the exists path. -/
theorem run_absent_ok
    (env project repo file_path new_content pr_title base_branch new_branch pr_description : String)
    (o : Oracle) (rid rname B pu href : String) (j3 pid prid : JVal)
    (h0 : okJson (o 0) (repoJson rid rname))
    (h1 : okJson (o 1) (refsJson B))
    (h2 : okJson (o 2) emptyRefsJson)
    (h3 : okJson (o 3) j3)
    (h4 : okJson (o 4) (pushJson pid))
    (h5 : okJson (o 5) (prRespJson prid pu href)) :
    azdo_update_file_and_create_pr env o project repo file_path new_content pr_title
        base_branch new_branch pr_description =
      ([⟨"GET", repoUrl env project repo, none⟩,
        ⟨"GET", refsFilterUrl env project (.str rid) ("refs/heads/" ++ base_branch), none⟩,
        ⟨"GET", refsFilterUrl env project (.str rid) ("refs/heads/" ++ new_branch), none⟩,
        ⟨"POST", refsPostUrl env project (.str rid),
           some (refUpdateBody ("refs/heads/" ++ new_branch) (.str zeros40) (.str B))⟩,
        ⟨"POST", pushesUrl env project (.str rid),
           some (.obj [("refUpdates", .arr [.obj [("name", .str ("refs/heads/" ++ new_branch)),
                                                  ("oldObjectId", .str B)]]),
                       ("commits", .arr [commitJson pr_title file_path new_content])])⟩,
        ⟨"POST", pullRequestsUrl env project (.str rid),
           some (prBody ("refs/heads/" ++ new_branch) ("refs/heads/" ++ base_branch)
                  pr_title pr_description)⟩],
       .ok (.obj [("repo", .obj [("id", .str rid), ("name", .str rname)]),
                  ("baseRef", .str ("refs/heads/" ++ base_branch)),
                  ("sourceRef", .str ("refs/heads/" ++ new_branch)),
                  ("pushId", pid),
                  ("pullRequestId", prid),
                  ("prUrl", .str pu),
                  ("webUrl", .str href)])) := by
  obtain ⟨s0, p0, t0⟩ := h0
  obtain ⟨s1, p1, t1⟩ := h1
  obtain ⟨s2, p2, t2⟩ := h2
  obtain ⟨s3, p3, t3⟩ := h3
  obtain ⟨s4, p4, t4⟩ := h4
  obtain ⟨s5, p5, t5⟩ := h5
  simp [azdo_update_file_and_create_pr, get_repo, get_ref_object_id, create_or_update_ref,
        create_push, create_pr, rqst, repoJson, refsJson, emptyRefsJson, pushJson, prRespJson,
        pyGet, jGet, pySubscr, jIndex0, JVal.falsy, JVal.lookup, List.lookup,
        s0, p0, t0, s1, p1, t1, s2, p2, t2, s3, p3, t3, s4, p4, t4, s5, p5, t5]

/-- Appending distinct strings to a common front string yields distinct
strings (used for the fully qualified ref names). -/
theorem strAppend_ne (p a b : String) (h : a ≠ b) : p ++ a ≠ p ++ b := by
  intro hEq
  apply h
  have h2 := congrArg String.data hEq
  simp [String.data_append] at h2
  exact String.ext h2

/-- C1 (amended): when the ref-update resetting the existing working branch
fails, the exception is caught by the workflow's `except` block and a
ref-creation with the all-zero sentinel `oldObjectId` is attempted instead.
If that second call also fails, the workflow aborts with the generic remote
error of the *second* call — there is no `ConcurrencyConflictError`, and the
original ref-update failure is not surfaced — and no push is issued. -/
theorem claim_C1
    (env project repo file_path new_content pr_title base_branch new_branch pr_description : String)
    (o : Oracle) (rid rname B C : String)
    (h : scriptedResetConflict o rid rname B C) :
    azdo_update_file_and_create_pr env o project repo file_path new_content pr_title
        base_branch new_branch pr_description =
      ([⟨"GET", repoUrl env project repo, none⟩,
        ⟨"GET", refsFilterUrl env project (.str rid) ("refs/heads/" ++ base_branch), none⟩,
        ⟨"GET", refsFilterUrl env project (.str rid) ("refs/heads/" ++ new_branch), none⟩,
        ⟨"POST", refsPostUrl env project (.str rid),
           some (refUpdateBody ("refs/heads/" ++ new_branch) (.str C) (.str B))⟩,
        ⟨"POST", refsPostUrl env project (.str rid),
           some (refUpdateBody ("refs/heads/" ++ new_branch) (.str zeros40) (.str B))⟩],
       .error (.api (o 4).status (refsPostUrl env project (.str rid)) (bodyOf (o 4)))) ∧
    ((azdo_update_file_and_create_pr env o project repo file_path new_content pr_title
        base_branch new_branch pr_description).1.filter isPushReq) = [] := by
  obtain ⟨h0, h1, h2, hs3, hs4⟩ := h
  obtain ⟨s0, p0, t0⟩ := h0
  obtain ⟨s1, p1, t1⟩ := h1
  obtain ⟨s2, p2, t2⟩ := h2
  constructor
  · simp [azdo_update_file_and_create_pr, get_repo, get_ref_object_id, create_or_update_ref,
          rqst, repoJson, refsJson, pyGet, jGet, pySubscr, jIndex0, JVal.falsy, JVal.lookup,
          List.lookup, s0, p0, t0, s1, p1, t1, s2, p2, t2, hs3, hs4]
  · simp [azdo_update_file_and_create_pr, get_repo, get_ref_object_id, create_or_update_ref,
          rqst, repoJson, refsJson, pyGet, jGet, pySubscr, jIndex0, JVal.falsy, JVal.lookup,
          List.lookup, s0, p0, t0, s1, p1, t1, s2, p2, t2, hs3, hs4,
          isPushReq, refUpdateBody, List.filter]

/-- C1 counterexample: with `oracleSwallowedConflict` the ref-update that
resets the existing working branch fails with a 409 (another actor moved the
branch), yet the workflow neither surfaces any conflict error nor stops: the
failure is swallowed, the zero-sentinel creation is accepted, and the
workflow pushes and returns success — refuting the claim that such a failure
surfaces as a distinct concurrency error and that the workflow then reports
failure without pushing. -/
theorem claim_C1_counterexample :
    (azdo_update_file_and_create_pr "https://dev.azure.com/org" oracleSwallowedConflict
        "proj" "repo" "/README.md" "new content" "t" "main" "work" "").2 =
      .ok (.obj [("repo", .obj [("id", .str "rid1"), ("name", .str "Repo")]),
                 ("baseRef", .str "refs/heads/main"),
                 ("sourceRef", .str "refs/heads/work"),
                 ("pushId", .num 7),
                 ("pullRequestId", .num 9),
                 ("prUrl", .str "http://pr"),
                 ("webUrl", .str "http://web")]) ∧
    ((azdo_update_file_and_create_pr "https://dev.azure.com/org" oracleSwallowedConflict
        "proj" "repo" "/README.md" "new content" "t" "main" "work" "").1.filter isPushReq).length = 1 :=
  ⟨rfl, rfl⟩

/-- C1 witness: the amended statement at a concrete script where the reset
is rejected with 409 and the zero-sentinel creation with 400. -/
theorem claim_C1_witness :
    scriptedResetConflict oracleResetConflict "rid1" "Repo" "bbb222" "ccc333" ∧
    (azdo_update_file_and_create_pr "https://dev.azure.com/org" oracleResetConflict
        "proj" "repo" "/README.md" "new content" "t" "main" "work" "" =
      ([⟨"GET", repoUrl "https://dev.azure.com/org" "proj" "repo", none⟩,
        ⟨"GET", refsFilterUrl "https://dev.azure.com/org" "proj" (.str "rid1") "refs/heads/main", none⟩,
        ⟨"GET", refsFilterUrl "https://dev.azure.com/org" "proj" (.str "rid1") "refs/heads/work", none⟩,
        ⟨"POST", refsPostUrl "https://dev.azure.com/org" "proj" (.str "rid1"),
           some (refUpdateBody "refs/heads/work" (.str "ccc333") (.str "bbb222"))⟩,
        ⟨"POST", refsPostUrl "https://dev.azure.com/org" "proj" (.str "rid1"),
           some (refUpdateBody "refs/heads/work" (.str zeros40) (.str "bbb222"))⟩],
       .error (.api 400 (refsPostUrl "https://dev.azure.com/org" "proj" (.str "rid1")) (.inr "bad"))) ∧
     ((azdo_update_file_and_create_pr "https://dev.azure.com/org" oracleResetConflict
        "proj" "repo" "/README.md" "new content" "t" "main" "work" "").1.filter isPushReq) = []) :=
  ⟨⟨⟨rfl, rfl, by decide⟩, ⟨rfl, rfl, by decide⟩, ⟨rfl, rfl, by decide⟩, by decide, by decide⟩,
   claim_C1 "https://dev.azure.com/org" "proj" "repo" "/README.md" "new content" "t"
     "main" "work" "" oracleResetConflict "rid1" "Repo" "bbb222" "ccc333"
     ⟨⟨rfl, rfl, by decide⟩, ⟨rfl, rfl, by decide⟩, ⟨rfl, rfl, by decide⟩, by decide, by decide⟩⟩

/-- C2 (amended): when PR creation fails after a successful push, the
workflow propagates the PR call's remote error unchanged as its failure
outcome; the failure value carries only the PR response's status, URL and
body, and in particular does not include the completed push id (the
conclusion is independent of `pid`).  The push id appears only in the
success dictionary returned when every step succeeds. -/
theorem claim_C2
    (env project repo file_path new_content pr_title base_branch new_branch pr_description : String)
    (o : Oracle) (rid rname B C : String) (j3 pid : JVal)
    (h : scriptedPrRejected o rid rname B C j3 pid) :
    azdo_update_file_and_create_pr env o project repo file_path new_content pr_title
        base_branch new_branch pr_description =
      ([⟨"GET", repoUrl env project repo, none⟩,
        ⟨"GET", refsFilterUrl env project (.str rid) ("refs/heads/" ++ base_branch), none⟩,
        ⟨"GET", refsFilterUrl env project (.str rid) ("refs/heads/" ++ new_branch), none⟩,
        ⟨"POST", refsPostUrl env project (.str rid),
           some (refUpdateBody ("refs/heads/" ++ new_branch) (.str C) (.str B))⟩,
        ⟨"POST", pushesUrl env project (.str rid),
           some (.obj [("refUpdates", .arr [.obj [("name", .str ("refs/heads/" ++ new_branch)),
                                                  ("oldObjectId", .str B)]]),
                       ("commits", .arr [commitJson pr_title file_path new_content])])⟩,
        ⟨"POST", pullRequestsUrl env project (.str rid),
           some (prBody ("refs/heads/" ++ new_branch) ("refs/heads/" ++ base_branch)
                  pr_title pr_description)⟩],
       .error (.api (o 5).status (pullRequestsUrl env project (.str rid)) (bodyOf (o 5)))) := by
  obtain ⟨h0, h1, h2, h3, h4, hs5⟩ := h
  obtain ⟨s0, p0, t0⟩ := h0
  obtain ⟨s1, p1, t1⟩ := h1
  obtain ⟨s2, p2, t2⟩ := h2
  obtain ⟨s3, p3, t3⟩ := h3
  obtain ⟨s4, p4, t4⟩ := h4
  simp [azdo_update_file_and_create_pr, get_repo, get_ref_object_id, create_or_update_ref,
        create_push, create_pr, rqst, repoJson, refsJson, pushJson,
        pyGet, jGet, pySubscr, jIndex0, JVal.falsy, JVal.lookup, List.lookup,
        s0, p0, t0, s1, p1, t1, s2, p2, t2, s3, p3, t3, s4, p4, t4, hs5]

/-- C2 counterexample: two runs that differ only in the push id the server
assigns (42 versus 43) and whose PR creation is rejected produce *identical*
failure outcomes, so the reported failure cannot include the completed push
id; the failure value is exactly the PR call's error and visibly carries no
push id, even though the push was issued (six outbound requests, one push). -/
theorem claim_C2_counterexample :
    azdo_update_file_and_create_pr "https://dev.azure.com/org" (oraclePrReject 42)
        "proj" "repo" "/README.md" "new content" "t" "main" "work" "" =
      azdo_update_file_and_create_pr "https://dev.azure.com/org" (oraclePrReject 43)
        "proj" "repo" "/README.md" "new content" "t" "main" "work" "" ∧
    (azdo_update_file_and_create_pr "https://dev.azure.com/org" (oraclePrReject 42)
        "proj" "repo" "/README.md" "new content" "t" "main" "work" "").2 =
      .error (.api 409 (pullRequestsUrl "https://dev.azure.com/org" "proj" (.str "rid1"))
        (.inl prRejectBody)) ∧
    ((azdo_update_file_and_create_pr "https://dev.azure.com/org" (oraclePrReject 42)
        "proj" "repo" "/README.md" "new content" "t" "main" "work" "").1.filter isPushReq).length = 1 :=
  ⟨rfl, rfl, rfl⟩

/-- C2 witness: the amended statement at a concrete script where the push
succeeds with push id 42 and PR creation is rejected with 409. -/
theorem claim_C2_witness :
    scriptedPrRejected (oraclePrReject 42) "rid1" "Repo" "bbb222" "ccc333" .null (.num 42) ∧
    azdo_update_file_and_create_pr "https://dev.azure.com/org" (oraclePrReject 42)
        "proj" "repo" "/README.md" "new content" "t" "main" "work" "" =
      ([⟨"GET", repoUrl "https://dev.azure.com/org" "proj" "repo", none⟩,
        ⟨"GET", refsFilterUrl "https://dev.azure.com/org" "proj" (.str "rid1") "refs/heads/main", none⟩,
        ⟨"GET", refsFilterUrl "https://dev.azure.com/org" "proj" (.str "rid1") "refs/heads/work", none⟩,
        ⟨"POST", refsPostUrl "https://dev.azure.com/org" "proj" (.str "rid1"),
           some (refUpdateBody "refs/heads/work" (.str "ccc333") (.str "bbb222"))⟩,
        ⟨"POST", pushesUrl "https://dev.azure.com/org" "proj" (.str "rid1"),
           some (.obj [("refUpdates", .arr [.obj [("name", .str "refs/heads/work"),
                                                  ("oldObjectId", .str "bbb222")]]),
                       ("commits", .arr [commitJson "t" "/README.md" "new content"])])⟩,
        ⟨"POST", pullRequestsUrl "https://dev.azure.com/org" "proj" (.str "rid1"),
           some (prBody "refs/heads/work" "refs/heads/main" "t" "")⟩],
       .error (.api 409 (pullRequestsUrl "https://dev.azure.com/org" "proj" (.str "rid1"))
         (.inl prRejectBody))) :=
  ⟨⟨⟨rfl, rfl, by decide⟩, ⟨rfl, rfl, by decide⟩, ⟨rfl, rfl, by decide⟩,
    ⟨rfl, rfl, by decide⟩, ⟨rfl, rfl, by decide⟩, by decide⟩,
   claim_C2 "https://dev.azure.com/org" "proj" "repo" "/README.md" "new content" "t"
     "main" "work" "" (oraclePrReject 42) "rid1" "Repo" "bbb222" "ccc333" .null (.num 42)
     ⟨⟨rfl, rfl, by decide⟩, ⟨rfl, rfl, by decide⟩, ⟨rfl, rfl, by decide⟩,
      ⟨rfl, rfl, by decide⟩, ⟨rfl, rfl, by decide⟩, by decide⟩⟩

/-- C3 (amended): whenever the caller-supplied `new_branch` differs from
`base_branch`, the PR request the workflow sends pairs a source ref that
differs from the target ref.  The workflow itself performs no such check:
the refs are built by prefixing each branch name with `refs/heads/`, so they
coincide exactly when the caller passes equal branch names (see the
counterexample). -/
theorem claim_C3
    (env project repo file_path new_content pr_title base_branch new_branch pr_description : String)
    (o : Oracle) (rid rname B C pu href : String) (j3 pid prid : JVal)
    (h : scriptedExistsOk o rid rname B C j3 pid prid pu href)
    (hne : new_branch ≠ base_branch) :
    ((azdo_update_file_and_create_pr env o project repo file_path new_content pr_title
        base_branch new_branch pr_description).1.getD 5 dummyReq) =
      ⟨"POST", pullRequestsUrl env project (.str rid),
        some (prBody ("refs/heads/" ++ new_branch) ("refs/heads/" ++ base_branch)
          pr_title pr_description)⟩ ∧
    ("refs/heads/" ++ new_branch : String) ≠ ("refs/heads/" ++ base_branch) := by
  obtain ⟨h0, h1, h2, h3, h4, h5⟩ := h
  refine ⟨?_, strAppend_ne _ _ _ hne⟩
  rw [run_exists_ok env project repo file_path new_content pr_title base_branch new_branch
        pr_description o rid rname B C pu href j3 pid prid h0 h1 h2 h3 h4 h5]
  rfl

/-- C3 counterexample: with `base_branch = new_branch = "main"` the workflow
runs to completion and the PR request it sends has `sourceRefName` equal to
`targetRefName` (both `refs/heads/main`), refuting the claim that the source
ref passed to PR creation differs from the target ref for all caller-supplied
branch names. -/
theorem claim_C3_counterexample :
    ((azdo_update_file_and_create_pr "https://dev.azure.com/org" oracleExistsOk
        "proj" "repo" "/README.md" "new content" "t" "main" "main" "").1.getD 5 dummyReq).body
      = some (prBody "refs/heads/main" "refs/heads/main" "t" "") ∧
    (prBody "refs/heads/main" "refs/heads/main" "t" "").lookup "sourceRefName"
      = (prBody "refs/heads/main" "refs/heads/main" "t" "").lookup "targetRefName" ∧
    (azdo_update_file_and_create_pr "https://dev.azure.com/org" oracleExistsOk
        "proj" "repo" "/README.md" "new content" "t" "main" "main" "").2 =
      .ok (.obj [("repo", .obj [("id", .str "rid1"), ("name", .str "Repo")]),
                 ("baseRef", .str "refs/heads/main"),
                 ("sourceRef", .str "refs/heads/main"),
                 ("pushId", .num 7),
                 ("pullRequestId", .num 9),
                 ("prUrl", .str "http://pr"),
                 ("webUrl", .str "http://web")]) :=
  ⟨rfl, rfl, rfl⟩

/-- C3 witness: the amended statement at a concrete script with distinct
branch names `work` and `main`. -/
theorem claim_C3_witness :
    scriptedExistsOk oracleExistsOk "rid1" "Repo" "bbb222" "ccc333" .null (.num 7) (.num 9)
      "http://pr" "http://web" ∧
    ("work" : String) ≠ "main" ∧
    (((azdo_update_file_and_create_pr "https://dev.azure.com/org" oracleExistsOk
        "proj" "repo" "/README.md" "new content" "t" "main" "work" "").1.getD 5 dummyReq) =
      ⟨"POST", pullRequestsUrl "https://dev.azure.com/org" "proj" (.str "rid1"),
        some (prBody "refs/heads/work" "refs/heads/main" "t" "")⟩ ∧
     ("refs/heads/work" : String) ≠ "refs/heads/main") :=
  ⟨⟨⟨rfl, rfl, by decide⟩, ⟨rfl, rfl, by decide⟩, ⟨rfl, rfl, by decide⟩,
    ⟨rfl, rfl, by decide⟩, ⟨rfl, rfl, by decide⟩, ⟨rfl, rfl, by decide⟩⟩,
   by decide,
   claim_C3 "https://dev.azure.com/org" "proj" "repo" "/README.md" "new content" "t"
     "main" "work" "" oracleExistsOk "rid1" "Repo" "bbb222" "ccc333" "http://pr" "http://web"
     .null (.num 7) (.num 9)
     ⟨⟨rfl, rfl, by decide⟩, ⟨rfl, rfl, by decide⟩, ⟨rfl, rfl, by decide⟩,
      ⟨rfl, rfl, by decide⟩, ⟨rfl, rfl, by decide⟩, ⟨rfl, rfl, by decide⟩⟩
     (by decide)⟩

/-- C4 (amended): in the transport, a 2xx response with an empty
(whitespace-only) body is a valid success mapping to the absent result
(Python `None`); a 2xx response whose nonempty body is not parseable as JSON
is *returned as a success value* — the raw body text — rather than reported
as a typed malformed-response error (no such error exists in the code). -/
theorem claim_C4 (o : Oracle) (tr : List Request) (m u : String) (b : Option JVal)
    (hlt : (o tr.length).status < 400) :
    (pyStrip (o tr.length).text = "" → (rqst o tr m u b).2 = .ok .none) ∧
    (pyStrip (o tr.length).text ≠ "" → (o tr.length).parsed = none →
      (rqst o tr m u b).2 = .ok (.str (o tr.length).text)) := by
  have hn : ¬ (400 ≤ (o tr.length).status) := by omega
  constructor
  · intro hblank
    simp [rqst, hn, hblank]
  · intro hblank hparse
    simp [rqst, hn, hblank, hparse]

/-- C4 counterexample: a 2xx response whose body `oops not json` is not
parseable JSON is returned by the transport as the success value
`PyVal.str "oops not json"`, not as any error — refuting the claim that such
a body is reported as a typed `MalformedResponseError`. -/
theorem claim_C4_counterexample :
    (rqst oracleRawBody [] "GET" "http://u" none).2 = .ok (.str "oops not json") :=
  rfl

/-- C4 witness: the amended statement at a concrete 2xx response, checked in
both the empty-body branch (the script's out-of-range default response) and
the non-JSON branch. -/
theorem claim_C4_witness :
    (oracleRawBody 0).status < 400 ∧
    (pyStrip (oracleRawBody 0).text ≠ "" ∧ (oracleRawBody 0).parsed = none ∧
      (rqst oracleRawBody [] "GET" "http://u" none).2 = .ok (.str "oops not json")) ∧
    (script [] 0).status < 400 ∧
    (pyStrip (script [] 0).text = "" ∧
      (rqst (script []) [] "GET" "http://u" none).2 = .ok .none) :=
  ⟨by decide,
   ⟨by decide, rfl, (claim_C4 oracleRawBody [] "GET" "http://u" none (by decide)).2 (by decide) rfl⟩,
   by decide,
   ⟨by decide, (claim_C4 (script []) [] "GET" "http://u" none (by decide)).1 (by decide)⟩⟩

/-- C5: for two invocations with the same inputs and the same base tip `B`,
where the working branch already exists at stale tips `C` respectively `C'`
(each different from `B`), the workflow first resets the working branch to
`B` — the fourth request is a ref update whose `newObjectId` is `B`,
discarding the stale tip — and the push requests of the two runs are
*identical* (and independent of `C`, `C'`), so repeated invocations with a
fixed base and fixed new content yield the same final branch content. -/
theorem claim_C5
    (env project repo file_path new_content pr_title base_branch new_branch pr_description : String)
    (o o' : Oracle) (rid rname B C C' pu href pu' href' : String) (j3 j3' pid pid' prid prid' : JVal)
    (h : scriptedExistsOk o rid rname B C j3 pid prid pu href)
    (h' : scriptedExistsOk o' rid rname B C' j3' pid' prid' pu' href')
    (hC : C ≠ B) (hC' : C' ≠ B) :
    ((azdo_update_file_and_create_pr env o project repo file_path new_content pr_title
        base_branch new_branch pr_description).1.getD 3 dummyReq) =
      ⟨"POST", refsPostUrl env project (.str rid),
        some (refUpdateBody ("refs/heads/" ++ new_branch) (.str C) (.str B))⟩ ∧
    ((azdo_update_file_and_create_pr env o' project repo file_path new_content pr_title
        base_branch new_branch pr_description).1.getD 3 dummyReq) =
      ⟨"POST", refsPostUrl env project (.str rid),
        some (refUpdateBody ("refs/heads/" ++ new_branch) (.str C') (.str B))⟩ ∧
    ((azdo_update_file_and_create_pr env o project repo file_path new_content pr_title
        base_branch new_branch pr_description).1.getD 4 dummyReq) =
      ((azdo_update_file_and_create_pr env o' project repo file_path new_content pr_title
        base_branch new_branch pr_description).1.getD 4 dummyReq) ∧
    ((azdo_update_file_and_create_pr env o project repo file_path new_content pr_title
        base_branch new_branch pr_description).1.getD 4 dummyReq) =
      ⟨"POST", pushesUrl env project (.str rid),
        some (.obj [("refUpdates", .arr [.obj [("name", .str ("refs/heads/" ++ new_branch)),
                                               ("oldObjectId", .str B)]]),
                    ("commits", .arr [commitJson pr_title file_path new_content])])⟩ := by
  obtain ⟨h0, h1, h2, h3, h4, h5⟩ := h
  obtain ⟨h0', h1', h2', h3', h4', h5'⟩ := h'
  rw [run_exists_ok env project repo file_path new_content pr_title base_branch new_branch
        pr_description o rid rname B C pu href j3 pid prid h0 h1 h2 h3 h4 h5,
      run_exists_ok env project repo file_path new_content pr_title base_branch new_branch
        pr_description o' rid rname B C' pu' href' j3' pid' prid' h0' h1' h2' h3' h4' h5']
  exact ⟨rfl, rfl, rfl, rfl⟩

/-- C5 witness: the statement at two concrete scripts whose working branch
sits at the distinct stale tips ccc333 and eee555 over the same base tip
bbb222. -/
theorem claim_C5_witness :
    scriptedExistsOk oracleExistsOk "rid1" "Repo" "bbb222" "ccc333" .null (.num 7) (.num 9)
      "http://pr" "http://web" ∧
    scriptedExistsOk oracleExistsOkAlt "rid1" "Repo" "bbb222" "eee555" .null (.num 7) (.num 9)
      "http://pr" "http://web" ∧
    ("ccc333" : String) ≠ "bbb222" ∧ ("eee555" : String) ≠ "bbb222" ∧
    (((azdo_update_file_and_create_pr "https://dev.azure.com/org" oracleExistsOk
        "proj" "repo" "/README.md" "new content" "t" "main" "work" "").1.getD 3 dummyReq) =
      ⟨"POST", refsPostUrl "https://dev.azure.com/org" "proj" (.str "rid1"),
        some (refUpdateBody "refs/heads/work" (.str "ccc333") (.str "bbb222"))⟩ ∧
     ((azdo_update_file_and_create_pr "https://dev.azure.com/org" oracleExistsOkAlt
        "proj" "repo" "/README.md" "new content" "t" "main" "work" "").1.getD 3 dummyReq) =
      ⟨"POST", refsPostUrl "https://dev.azure.com/org" "proj" (.str "rid1"),
        some (refUpdateBody "refs/heads/work" (.str "eee555") (.str "bbb222"))⟩ ∧
     ((azdo_update_file_and_create_pr "https://dev.azure.com/org" oracleExistsOk
        "proj" "repo" "/README.md" "new content" "t" "main" "work" "").1.getD 4 dummyReq) =
      ((azdo_update_file_and_create_pr "https://dev.azure.com/org" oracleExistsOkAlt
        "proj" "repo" "/README.md" "new content" "t" "main" "work" "").1.getD 4 dummyReq) ∧
     ((azdo_update_file_and_create_pr "https://dev.azure.com/org" oracleExistsOk
        "proj" "repo" "/README.md" "new content" "t" "main" "work" "").1.getD 4 dummyReq) =
      ⟨"POST", pushesUrl "https://dev.azure.com/org" "proj" (.str "rid1"),
        some (.obj [("refUpdates", .arr [.obj [("name", .str "refs/heads/work"),
                                               ("oldObjectId", .str "bbb222")]]),
                    ("commits", .arr [commitJson "t" "/README.md" "new content"])])⟩) :=
  ⟨⟨⟨rfl, rfl, by decide⟩, ⟨rfl, rfl, by decide⟩, ⟨rfl, rfl, by decide⟩,
    ⟨rfl, rfl, by decide⟩, ⟨rfl, rfl, by decide⟩, ⟨rfl, rfl, by decide⟩⟩,
   ⟨⟨rfl, rfl, by decide⟩, ⟨rfl, rfl, by decide⟩, ⟨rfl, rfl, by decide⟩,
    ⟨rfl, rfl, by decide⟩, ⟨rfl, rfl, by decide⟩, ⟨rfl, rfl, by decide⟩⟩,
   by decide, by decide,
   claim_C5 "https://dev.azure.com/org" "proj" "repo" "/README.md" "new content" "t"
     "main" "work" "" oracleExistsOk oracleExistsOkAlt "rid1" "Repo" "bbb222" "ccc333" "eee555"
     "http://pr" "http://web" "http://pr" "http://web" .null .null (.num 7) (.num 7) (.num 9) (.num 9)
     ⟨⟨rfl, rfl, by decide⟩, ⟨rfl, rfl, by decide⟩, ⟨rfl, rfl, by decide⟩,
      ⟨rfl, rfl, by decide⟩, ⟨rfl, rfl, by decide⟩, ⟨rfl, rfl, by decide⟩⟩
     ⟨⟨rfl, rfl, by decide⟩, ⟨rfl, rfl, by decide⟩, ⟨rfl, rfl, by decide⟩,
      ⟨rfl, rfl, by decide⟩, ⟨rfl, rfl, by decide⟩, ⟨rfl, rfl, by decide⟩⟩
     (by decide) (by decide)⟩

/-- C6: when the working branch does not already exist (the filtered refs
listing returns zero matches), the whole run contains exactly one
ref-creation/ref-update request, and it pairs `oldObjectId` with the
all-zero sentinel — a string of exactly 40 zero characters — and
`newObjectId` with the resolved base object id `B`. -/
theorem claim_C6
    (env project repo file_path new_content pr_title base_branch new_branch pr_description : String)
    (o : Oracle) (rid rname B pu href : String) (j3 pid prid : JVal)
    (h : scriptedAbsentOk o rid rname B j3 pid prid pu href) :
    ((azdo_update_file_and_create_pr env o project repo file_path new_content pr_title
        base_branch new_branch pr_description).1.filter isRefPost) =
      [⟨"POST", refsPostUrl env project (.str rid),
        some (refUpdateBody ("refs/heads/" ++ new_branch) (.str zeros40) (.str B))⟩] ∧
    zeros40.length = 40 ∧ zeros40.data.all (fun c => c = '0') = true := by
  obtain ⟨h0, h1, h2, h3, h4, h5⟩ := h
  refine ⟨?_, by decide, by decide⟩
  rw [run_absent_ok env project repo file_path new_content pr_title base_branch new_branch
        pr_description o rid rname B pu href j3 pid prid h0 h1 h2 h3 h4 h5]
  rfl

/-- C6 witness: the statement at a concrete script where the working branch
is absent and the base tip is aaa111. -/
theorem claim_C6_witness :
    scriptedAbsentOk oracleAbsentOk "rid1" "Repo" "aaa111" .null (.num 7) (.num 9)
      "http://pr" "http://web" ∧
    (((azdo_update_file_and_create_pr "https://dev.azure.com/org" oracleAbsentOk
        "proj" "repo" "/README.md" "new content" "t" "main" "work" "").1.filter isRefPost) =
      [⟨"POST", refsPostUrl "https://dev.azure.com/org" "proj" (.str "rid1"),
        some (refUpdateBody "refs/heads/work" (.str zeros40) (.str "aaa111"))⟩] ∧
     zeros40.length = 40 ∧ zeros40.data.all (fun c => c = '0') = true) :=
  ⟨⟨⟨rfl, rfl, by decide⟩, ⟨rfl, rfl, by decide⟩, ⟨rfl, rfl, by decide⟩,
    ⟨rfl, rfl, by decide⟩, ⟨rfl, rfl, by decide⟩, ⟨rfl, rfl, by decide⟩⟩,
   claim_C6 "https://dev.azure.com/org" "proj" "repo" "/README.md" "new content" "t"
     "main" "work" "" oracleAbsentOk "rid1" "Repo" "aaa111" "http://pr" "http://web"
     .null (.num 7) (.num 9)
     ⟨⟨rfl, rfl, by decide⟩, ⟨rfl, rfl, by decide⟩, ⟨rfl, rfl, by decide⟩,
      ⟨rfl, rfl, by decide⟩, ⟨rfl, rfl, by decide⟩, ⟨rfl, rfl, by decide⟩⟩⟩

/-- C7: the whole run contains exactly one push request; its single
ref-update entry pairs the working branch's ref name with the base object id
`B` the branch was just set to, and its single commit entry carries the
caller's message (the PR title, which the workflow reuses as the commit
comment), the change type `edit`, the target path and the raw new content
verbatim. -/
theorem claim_C7
    (env project repo file_path new_content pr_title base_branch new_branch pr_description : String)
    (o : Oracle) (rid rname B C pu href : String) (j3 pid prid : JVal)
    (h : scriptedExistsOk o rid rname B C j3 pid prid pu href) :
    ((azdo_update_file_and_create_pr env o project repo file_path new_content pr_title
        base_branch new_branch pr_description).1.filter isPushReq) =
      [⟨"POST", pushesUrl env project (.str rid),
        some (.obj [("refUpdates", .arr [.obj [("name", .str ("refs/heads/" ++ new_branch)),
                                               ("oldObjectId", .str B)]]),
                    ("commits", .arr [commitJson pr_title file_path new_content])])⟩] := by
  obtain ⟨h0, h1, h2, h3, h4, h5⟩ := h
  rw [run_exists_ok env project repo file_path new_content pr_title base_branch new_branch
        pr_description o rid rname B C pu href j3 pid prid h0 h1 h2 h3 h4 h5]
  rfl

/-- C7 witness: the statement at a concrete all-success script. -/
theorem claim_C7_witness :
    scriptedExistsOk oracleExistsOk "rid1" "Repo" "bbb222" "ccc333" .null (.num 7) (.num 9)
      "http://pr" "http://web" ∧
    ((azdo_update_file_and_create_pr "https://dev.azure.com/org" oracleExistsOk
        "proj" "repo" "/README.md" "new content" "t" "main" "work" "").1.filter isPushReq) =
      [⟨"POST", pushesUrl "https://dev.azure.com/org" "proj" (.str "rid1"),
        some (.obj [("refUpdates", .arr [.obj [("name", .str "refs/heads/work"),
                                               ("oldObjectId", .str "bbb222")]]),
                    ("commits", .arr [commitJson "t" "/README.md" "new content"])])⟩] :=
  ⟨⟨⟨rfl, rfl, by decide⟩, ⟨rfl, rfl, by decide⟩, ⟨rfl, rfl, by decide⟩,
    ⟨rfl, rfl, by decide⟩, ⟨rfl, rfl, by decide⟩, ⟨rfl, rfl, by decide⟩⟩,
   claim_C7 "https://dev.azure.com/org" "proj" "repo" "/README.md" "new content" "t"
     "main" "work" "" oracleExistsOk "rid1" "Repo" "bbb222" "ccc333" "http://pr" "http://web"
     .null (.num 7) (.num 9)
     ⟨⟨rfl, rfl, by decide⟩, ⟨rfl, rfl, by decide⟩, ⟨rfl, rfl, by decide⟩,
      ⟨rfl, rfl, by decide⟩, ⟨rfl, rfl, by decide⟩, ⟨rfl, rfl, by decide⟩⟩⟩

/-- C8 (amended): every response with status 400 or above makes the
transport raise the error carrying the status code, the URL, and the raw
response body — the parsed JSON when the body parses, otherwise the raw
text — and nothing else is returned (the error is the transport call's
entire outcome, so the body is preserved and never swallowed at this
layer).  Non-2xx statuses below 400 are *not* converted: the transport's
test is `status >= 400`, so a 3xx response falls through the success path
(see the counterexample). -/
theorem claim_C8 (o : Oracle) (tr : List Request) (m u : String) (b : Option JVal)
    (hge : 400 ≤ (o tr.length).status) :
    rqst o tr m u b =
      (tr ++ [⟨m, u, b⟩],
       .error (.api (o tr.length).status u (bodyOf (o tr.length)))) := by
  simp [rqst, hge]

/-- C8 counterexample: a 304 Not Modified response — non-2xx, but below the
transport's `>= 400` threshold — is not converted to any error: its
non-JSON body is returned as the success value `PyVal.str "cached body"`,
refuting the claim that *every* non-2xx response is converted to the typed
remote error. -/
theorem claim_C8_counterexample :
    (oracleNotModified 0).status = 304 ∧
    (rqst oracleNotModified [] "GET" "http://u" none).2 = .ok (.str "cached body") :=
  ⟨rfl, rfl⟩

/-- C8 witness: the amended statement at a concrete 500 response with a
plain-text body. -/
theorem claim_C8_witness :
    400 ≤ (oracleServerErr 0).status ∧
    rqst oracleServerErr [] "GET" "http://u" none =
      ([⟨"GET", "http://u", none⟩], .error (.api 500 "http://u" (.inr "boom"))) :=
  ⟨by decide, claim_C8 oracleServerErr [] "GET" "http://u" none (by decide)⟩

/-- C9: when the repository lookup fails with 404 (the identifier does not
resolve), the workflow aborts at step 1 with the transport error carrying
that not-found status, the repository URL and the response body — the code's
only rendering of a repository-not-found failure — and the trace contains
exactly one outbound request: no refs, push or pull-request endpoint is ever
called. -/
theorem claim_C9
    (env project repo file_path new_content pr_title base_branch new_branch pr_description : String)
    (o : Oracle) (h404 : (o 0).status = 404) :
    azdo_update_file_and_create_pr env o project repo file_path new_content pr_title
        base_branch new_branch pr_description =
      ([⟨"GET", repoUrl env project repo, none⟩],
       .error (.api 404 (repoUrl env project repo) (bodyOf (o 0)))) ∧
    (azdo_update_file_and_create_pr env o project repo file_path new_content pr_title
        base_branch new_branch pr_description).1.length = 1 := by
  constructor
  · simp [azdo_update_file_and_create_pr, get_repo, rqst, h404]
  · simp [azdo_update_file_and_create_pr, get_repo, rqst, h404]

/-- C9 witness: the statement at a concrete script whose first response is a
404 with the remote API's repository-not-found body. -/
theorem claim_C9_witness :
    (oracleRepoMissing 0).status = 404 ∧
    (azdo_update_file_and_create_pr "https://dev.azure.com/org" oracleRepoMissing
        "proj" "repo" "/README.md" "new content" "t" "main" "work" "" =
      ([⟨"GET", repoUrl "https://dev.azure.com/org" "proj" "repo", none⟩],
       .error (.api 404 (repoUrl "https://dev.azure.com/org" "proj" "repo")
         (.inl (.obj [("message", .str "TF401019: the repository does not exist")])))) ∧
     (azdo_update_file_and_create_pr "https://dev.azure.com/org" oracleRepoMissing
        "proj" "repo" "/README.md" "new content" "t" "main" "work" "").1.length = 1) :=
  ⟨rfl,
   claim_C9 "https://dev.azure.com/org" "proj" "repo" "/README.md" "new content" "t"
     "main" "work" "" oracleRepoMissing rfl⟩

/-- C10: the commit submitted in the push always has change type `edit` and
its commit comment always equals the caller's PR title, whatever the
caller-supplied inputs; nothing in the scripted scenario constrains whether
the target file exists on the base branch, and no `add` change type can be
emitted (the body below is the only commit the workflow ever builds). -/
theorem claim_C10
    (env project repo file_path new_content pr_title base_branch new_branch pr_description : String)
    (o : Oracle) (rid rname B C pu href : String) (j3 pid prid : JVal)
    (h : scriptedExistsOk o rid rname B C j3 pid prid pu href) :
    ((azdo_update_file_and_create_pr env o project repo file_path new_content pr_title
        base_branch new_branch pr_description).1.getD 4 dummyReq).body =
      some (.obj [("refUpdates", .arr [.obj [("name", .str ("refs/heads/" ++ new_branch)),
                                             ("oldObjectId", .str B)]]),
                  ("commits", .arr [.obj [("comment", .str pr_title),
                     ("changes", .arr [.obj [("changeType", .str "edit"),
                                             ("item", .obj [("path", .str file_path)]),
                                             ("newContent", .obj [("content", .str new_content),
                                                                  ("contentType", .str "rawtext")])]])]])]) := by
  obtain ⟨h0, h1, h2, h3, h4, h5⟩ := h
  rw [run_exists_ok env project repo file_path new_content pr_title base_branch new_branch
        pr_description o rid rname B C pu href j3 pid prid h0 h1 h2 h3 h4 h5]
  rfl

/-- C10 witness: the statement at a concrete all-success script. -/
theorem claim_C10_witness :
    scriptedExistsOk oracleExistsOk "rid1" "Repo" "bbb222" "ccc333" .null (.num 7) (.num 9)
      "http://pr" "http://web" ∧
    ((azdo_update_file_and_create_pr "https://dev.azure.com/org" oracleExistsOk
        "proj" "repo" "/README.md" "new content" "t" "main" "work" "").1.getD 4 dummyReq).body =
      some (.obj [("refUpdates", .arr [.obj [("name", .str "refs/heads/work"),
                                             ("oldObjectId", .str "bbb222")]]),
                  ("commits", .arr [.obj [("comment", .str "t"),
                     ("changes", .arr [.obj [("changeType", .str "edit"),
                                             ("item", .obj [("path", .str "/README.md")]),
                                             ("newContent", .obj [("content", .str "new content"),
                                                                  ("contentType", .str "rawtext")])]])]])]) :=
  ⟨⟨⟨rfl, rfl, by decide⟩, ⟨rfl, rfl, by decide⟩, ⟨rfl, rfl, by decide⟩,
    ⟨rfl, rfl, by decide⟩, ⟨rfl, rfl, by decide⟩, ⟨rfl, rfl, by decide⟩⟩,
   claim_C10 "https://dev.azure.com/org" "proj" "repo" "/README.md" "new content" "t"
     "main" "work" "" oracleExistsOk "rid1" "Repo" "bbb222" "ccc333" "http://pr" "http://web"
     .null (.num 7) (.num 9)
     ⟨⟨rfl, rfl, by decide⟩, ⟨rfl, rfl, by decide⟩, ⟨rfl, rfl, by decide⟩,
      ⟨rfl, rfl, by decide⟩, ⟨rfl, rfl, by decide⟩, ⟨rfl, rfl, by decide⟩⟩⟩

end Azdo
